import Mathlib

/-!
A shallow embedding of `src/FormBuilder.js` (grindjs/html): the form-markup
builder's value-resolution, checked-state, attribute-assembly and
form-open/appendage logic, together with theorems settling the frozen claims.

Conventions of the embedding:
* JavaScript values flowing through the builder are modelled by `Val`;
  `Val.null` stands for both `null` and `undefined` (the two are only ever
  distinguished here through the framework's `isNil` absence check, which is
  true for both).
* A JavaScript plain object used as an options/attributes mapping is modelled
  by `Opts`, an association list ordered by first insertion, as JS objects
  are; `optSet` overwrites in place, `optGet` reads (absent key gives
  `Val.null`, matching `undefined`), `optDel` removes.
* Runtime exceptions (TypeError on property access of `null`, strict-mode
  ReferenceError on assignment to an undeclared identifier) are modelled with
  `Except JsErr`.  ES modules are always strict-mode code, so `FormBuilder.js`
  (an ES module) executes under strict semantics.
* Methods that mutate their caller's options object return the final options
  mapping alongside their result; methods that mutate builder state
  (`labels`, `model`) return the new `BuilderState`.
-/

namespace GrindHtml

/-- A JavaScript runtime value as used by the form builder: strings, numbers
(the builder only uses integral numbers), booleans, arrays, and the
null/undefined absence value. -/
inductive Val where
  | str (s : String)
  | num (n : Int)
  | bool (b : Bool)
  | list (l : List Val)
  | null
deriving Repr

/-- A JavaScript runtime exception. -/
inductive JsErr where
  | typeErr (msg : String)
  | refErr (msg : String)
deriving Repr, DecidableEq

/-- Modelled from the spec: the Grind framework's dynamic absence check
(`x.isNil`), an external capability compiled into the source (the framework,
not under `src/`, rewrites `.isNil` member accesses); per the spec's Design
Notes it is "a single absence-check predicate", true exactly for
null/undefined. -/
def isNil : Val → Bool
  | .null => true
  | _ => false

/-- JavaScript truthiness of a `Val` (`if(x)`, `a || b`): null/undefined and
`false`, `0`, `""` are falsy; objects (arrays) are always truthy. -/
def truthy : Val → Bool
  | .null => false
  | .bool b => b
  | .num n => n != 0
  | .str s => s != ""
  | .list _ => true

/-- JavaScript `a || b`. -/
def jsOr (a b : Val) : Val := if truthy a then a else b

/-- JavaScript strict equality `===` on the values the builder compares.
Primitives compare by value; two distinct array expressions are distinct
references, hence never `===`-equal. -/
def jsEq : Val → Val → Bool
  | .str a, .str b => a == b
  | .num a, .num b => a == b
  | .bool a, .bool b => a == b
  | .null, .null => true
  | _, _ => false

mutual

/-- JavaScript string coercion of a value (template literals, `String(x)`),
for the non-null values the builder stringifies; arrays join with commas. -/
def valStr : Val → String
  | .str s => s
  | .num n => toString n
  | .bool b => cond b "true" "false"
  | .null => "null"
  | .list l => valStrList l

/-- `Array.prototype.toString`: elements joined with commas. -/
def valStrList : List Val → String
  | [] => ""
  | [v] => valStr v
  | v :: vs => valStr v ++ "," ++ valStrList vs

end

/-- JavaScript `x.toString()`: throws a TypeError when `x` is null/undefined. -/
def jsToString : Val → Except JsErr String
  | .null => .error (.typeErr "Cannot read properties of null (reading toString)")
  | v => .ok (valStr v)

/-! Structurally recursive string primitives (replace-all, split, uppercase),
so that every rendering computation reduces inside the kernel.  They model
the JS `String.prototype` operations the source applies: global replacement
of a literal pattern, split on a literal pattern, `toUpperCase`. -/

/-- Replace every non-overlapping, leftmost-first occurrence of `pat` (a
non-empty character list) by `rep`; `fuel` bounds the recursion (the callers
pass the input length, which suffices since non-empty matches consume at
least one character). -/
def replaceFuel (pat rep : List Char) : Nat → List Char → List Char
  | 0, l => l
  | _ + 1, [] => []
  | n + 1, c :: cs =>
      if pat.isPrefixOf (c :: cs) then
        rep ++ replaceFuel pat rep n (List.drop (pat.length - 1) cs)
      else c :: replaceFuel pat rep n cs

/-- JS `s.replace(/pat/g, rep)` for a literal non-empty pattern. -/
def strReplace (s pat rep : String) : String :=
  if pat = "" then s
  else String.mk (replaceFuel pat.toList rep.toList s.toList.length s.toList)

/-- The segments of a character list split on the non-empty pattern `pat`
(leftmost-first, non-overlapping); `fuel` as in `replaceFuel`. -/
def splitSeg (pat : List Char) : Nat → List Char → List (List Char)
  | 0, l => [l]
  | _ + 1, [] => [[]]
  | n + 1, c :: cs =>
      if pat.isPrefixOf (c :: cs) then
        [] :: splitSeg pat n (List.drop (pat.length - 1) cs)
      else
        match splitSeg pat n cs with
        | [] => [[c]]
        | seg :: rest => (c :: seg) :: rest

/-- JS `s.split(/pat/)` for a literal non-empty pattern. -/
def strSplitOn (s pat : String) : List String :=
  if pat = "" then [s]
  else (splitSeg pat.toList s.toList.length s.toList).map String.mk

/-- JS `s.toUpperCase()` on the ASCII strings the source uppercases. -/
def strUpper (s : String) : String := String.mk (s.toList.map Char.toUpper)

/-- A JavaScript plain object used as an options/attributes mapping:
an association list in first-insertion order. -/
abbrev Opts := List (String × Val)

/-- Property read `m[k]`: the stored value, or null/undefined when absent. -/
def optGet : Opts → String → Val
  | [], _ => .null
  | (k', v) :: rest, k => if k' == k then v else optGet rest k

/-- `k in m`: whether the key is present. -/
def optHas : Opts → String → Bool
  | [], _ => false
  | (k', _) :: rest, k => k' == k || optHas rest k

/-- Property write `m[k] = v`: overwrite in place when the key exists
(keeping its position, as JS objects do), else append. -/
def optSet : Opts → String → Val → Opts
  | [], k, v => [(k, v)]
  | (k', v') :: rest, k, v =>
      if k' == k then (k', v) :: rest else (k', v') :: optSet rest k v

/-- `delete m[k]`. -/
def optDel (m : Opts) (k : String) : Opts := m.filter (fun p => p.1 != k)

/-- A `name : Option String` argument (the source passes either a string or
`null` for anonymous fields) as a `Val`, for storing into an options map. -/
def valOfName : Option String → Val
  | some n => .str n
  | none => .null

/-- Modelled from the spec: the bound model object (§4.3).  The model either
exposes the duck-typed "get form value by key" capability (`getFormValue` is
a function) or is read by plain property access on `props`. -/
structure FormModel where
  getFormValue : Option (String → Val)
  props : List (String × Val)

/-- The mutable state of a `FormBuilder` instance: the configured CSRF token,
the bound model (`null` when none), the label names recorded since the form
was opened, and the external collaborators.  `oldInput` and the three URL
functions are modelled from the spec (§1, §6): the session-backed old-input
store and the `app.url` resolver are not part of `src/`; the repository's own
`old()` / `oldInputIsEmpty()` stubs (lines 1024-1037, "No session support in
Grind yet") correspond exactly to `oldInput = []`. -/
structure BuilderState where
  csrfToken : Val
  model : Option FormModel
  labels : List String
  oldInput : List (String × Val)
  mkUrl : Val → String
  mkRoute : Val → String
  currentUrl : String

/-- Modelled from the spec: `old(name)`, the prior-submission ("old input")
lookup (`getOldInput(name) -> value|none`, spec §6).  The repository stubs
this to always return `null`; that behaviour is the instance `oldInput = []`. -/
def old (s : BuilderState) (name : String) : Val :=
  match s.oldInput.find? (fun p => p.1 == name) with
  | some p => p.2
  | none => .null

/-- Modelled from the spec: `oldInputIsEmpty()` (`hasAnyOldInput`, spec §6),
stubbed to `true` in the repository (the instance `oldInput = []`). -/
def oldInputIsEmpty (s : BuilderState) : Bool := s.oldInput.isEmpty

/-- `_transformKey(key)` (FormBuilder.js:1046): bracket notation to dotted
path.  Note the second replacement's pattern is literally `[ ]` —
bracket, space, bracket — as written in the source regex `/\[ \]/g`. -/
def _transformKey (key : String) : String :=
  strReplace (strReplace (strReplace (strReplace key "." "_") "[ ]" "") "[" ".") "]" ""

/-- The model read inside `_getModelValueAttribute` for a non-null model:
duck-typed `getFormValue` capability, else plain property access with the
transformed key. -/
def modelValueOf (m : FormModel) (name : String) : Val :=
  let key := _transformKey name
  match m.getFormValue with
  | some f => f key
  | none =>
      match m.props.find? (fun p => p.1 == key) with
      | some p => p.2
      | none => .null

/-- `_getModelValueAttribute(name)` (FormBuilder.js:1007).  The source reads
`this.model.getFormValue` without a nil guard, so when no model is bound
(`this.model` is `null`) the property access throws a TypeError. -/
def _getModelValueAttribute (s : BuilderState) (name : String) : Except JsErr Val :=
  match s.model with
  | none => .error (.typeErr "Cannot read properties of null (reading getFormValue)")
  | some m => .ok (modelValueOf m name)

/-- `getValueAttribute(name, value = null)` (FormBuilder.js:979): old input
(unless the field is `_method`), else the explicit value, else the bound
model's value, else null.  The model read here is guarded by
`!this.model.isNil`, so it cannot throw. -/
def getValueAttribute (s : BuilderState) (name : Option String) (value : Val) : Val :=
  match name with
  | none => value
  | some n =>
      let oldValue := old s n
      if !isNil oldValue && n != "_method" then oldValue
      else if !isNil value then value
      else
        match s.model with
        | some m => modelValueOf m n
        | none => .null

/-- `getIdAttribute(name, attributes)` (FormBuilder.js:959): an explicit `id`
option wins; else the field name if a label was recorded for it; else null. -/
def getIdAttribute (s : BuilderState) (name : Option String) (attributes : Opts) : Val :=
  if !isNil (optGet attributes "id") then optGet attributes "id"
  else
    match name with
    | some n => if s.labels.contains n then .str n else .null
    | none => .null

/-- Modelled from the spec: the HtmlBuilder text-escaping collaborator
(`escapeHtml`, spec §6), HTML-entity escaping of caller text. -/
def entities (s : String) : String :=
  strReplace (strReplace (strReplace (strReplace s "&" "&amp;") "<" "&lt;") ">" "&gt;")
    "\"" "&quot;"

/-- Modelled from the spec: the HtmlBuilder attribute serializer
(`serializeAttributes`, spec §6): "a leading-space-prefixed, HTML-escaped
`key=\"value\"` sequence, booleans rendered as bare attribute names,
`none`/absent values omitted". -/
def attributes (m : Opts) : String :=
  m.foldl (fun acc p =>
    match p.2 with
    | .null => acc
    | .bool true => acc ++ " " ++ p.1
    | .bool false => acc
    | v => acc ++ " " ++ p.1 ++ "=\"" ++ entities (valStr v) ++ "\"") ""

/-- The reserved form-open option keys (FormBuilder.js:42). -/
def reserved : List String := ["method", "url", "route", "action", "files"]

/-- The spoofed form methods, uppercase (FormBuilder.js:49). -/
def spoofedMethods : List String := ["DELETE", "PATCH", "PUT"]

/-- The input types whose value is not resolved (FormBuilder.js:56). -/
def skipValueTypes : List String := ["file", "password", "checkbox", "radio"]

/-- `name.replace(/_/, ' ')` inside `_formatLabel`: the regex has no `g`
flag, so only the first underscore becomes a space. -/
def replFirstUnd : List Char → List Char
  | [] => []
  | c :: cs => if c == '_' then ' ' :: cs else c :: replFirstUnd cs

/-- `name.replace(/_/, ' ')` as a string operation. -/
def replaceFirstUnderscore (s : String) : String := String.mk (replFirstUnd s.toList)

/-- JS `\w` word characters `[A-Za-z0-9_]`. -/
def isWordChar (c : Char) : Bool := c.isAlpha || c.isDigit || c == '_'

/-- The global replace `/(\b[a-z\x00-\x7F])/gi` with an uppercasing
replacement: every ASCII character standing at a word boundary (the class
`[a-z\x00-\x7F]` with `i` is all of ASCII) is uppercased.  `prevW` carries
whether the previous character was a word character (`false` at the start,
so position 0 is a boundary exactly when it holds a word character). -/
def upperAtBoundaries : Bool → List Char → List Char
  | _, [] => []
  | prevW, c :: cs =>
      let w := isWordChar c
      let c' := if prevW != w && c.toNat ≤ 127 then c.toUpper else c
      c' :: upperAtBoundaries w cs

/-- `_formatLabel(name, value)` (FormBuilder.js:203): an explicit value wins;
else the name with its first underscore replaced by a space and every
boundary character uppercased. -/
def _formatLabel (name : String) (value : Val) : String :=
  if !isNil value then valStr value
  else String.mk (upperAtBoundaries false (replaceFirstUnderscore name).toList)

/-- `label(name, value, options, escapeHtml)` (FormBuilder.js:181): records
the name into `labels`, renders `<label for=... >text</label>`.  Returns the
markup and the new builder state. -/
def label (s : BuilderState) (name : String) (value : Val) (options : Opts)
    (escapeHtml : Bool) : String × BuilderState :=
  let s' := { s with labels := s.labels ++ [name] }
  let optionsStr := attributes options
  let text := _formatLabel name value
  let text := if escapeHtml then entities text else text
  ("<label for=\"" ++ name ++ "\"" ++ optionsStr ++ ">" ++ text ++ "</label>", s')

/-- `input(type, name, value, options)` (FormBuilder.js:221): defaults
`options.name` to the field name when absent, computes the id, resolves the
value unless the type is in the skip list, then `Object.assign`s
`type`/`value`/`id` into the caller's options (in that order) and renders.
Returns the markup and the mutated options mapping. -/
def input (s : BuilderState) (type : String) (name : Option String) (value : Val)
    (options : Opts) : String × Opts :=
  let options :=
    if isNil (optGet options "name") then optSet options "name" (valOfName name)
    else options
  let id := getIdAttribute s name options
  let value := if skipValueTypes.contains type then value else getValueAttribute s name value
  let options := optSet (optSet (optSet options "type" (.str type)) "value" value) "id" id
  ("<input" ++ attributes options ++ ">", options)

/-- `hidden(name, value, options)` (FormBuilder.js:277). -/
def hidden (s : BuilderState) (name : Option String) (value : Val) (options : Opts) :
    String × Opts :=
  input s "hidden" name value options

/-- The token value computed inside `token()` (FormBuilder.js:161): the
condition is literally `token.isNil || token.length`, so the configured token
is replaced by `'UNSUPPORTED'` when it is absent **or a non-empty string**
(a non-zero `.length` is truthy); only `.length` of a string is a number,
`.length` of any other configured value is `undefined`, hence falsy. -/
def tokenValue (s : BuilderState) : Val :=
  let lenTruthy := match s.csrfToken with
    | .str t => t.length != 0
    | _ => false
  if isNil s.csrfToken || lenTruthy then .str "UNSUPPORTED" else s.csrfToken

/-- `token()` (FormBuilder.js:161): a hidden `_token` field with `tokenValue`. -/
def token (s : BuilderState) : String × Opts :=
  hidden s (some "_token") (tokenValue s) []

/-- A list index `segments[i]` as a JS value (`undefined` past the end). -/
def strAt (l : List String) (i : Nat) : Val :=
  match l.get? i with
  | some x => .str x
  | none => .null

/-- `_setQuickTextAreaSize(options)` (FormBuilder.js:451): split the `size`
option on `x` into `cols`/`rows` (on a copy, `Object.assign({}, ...)`).
Calling `.split` on a non-string `size` throws. -/
def _setQuickTextAreaSize (options : Opts) : Except JsErr Opts :=
  match optGet options "size" with
  | .str sz =>
      let segments := strSplitOn sz "x"
      .ok (optSet (optSet options "cols" (strAt segments 0)) "rows" (strAt segments 1))
  | _ => .error (.typeErr "options.size.split is not a function")

/-- `_setTextAreaSize(options)` (FormBuilder.js:430): quick `size` mode when
a `size` option is present, else `cols` defaulting to 50 and `rows` to 10
(`||`, so falsy explicit values also take the default). -/
def _setTextAreaSize (options : Opts) : Except JsErr Opts :=
  if !isNil (optGet options "size") then _setQuickTextAreaSize options
  else
    let cols := jsOr (optGet options "cols") (.num 50)
    let rows := jsOr (optGet options "rows") (.num 10)
    .ok (optSet (optSet options "cols" cols) "rows" rows)

/-- `textarea(name, value, options)` (FormBuilder.js:401).  The source ends
value resolution with `this.getValueAttribute(name, value).toString()`:
when resolution yields `null` (no old input, no explicit value, no model
value) the `.toString()` call throws a TypeError. -/
def textarea (s : BuilderState) (name : Option String) (value : Val) (options : Opts) :
    Except JsErr String :=
  let options :=
    if isNil (optGet options "name") then optSet options "name" (valOfName name)
    else options
  match _setTextAreaSize options with
  | .error e => .error e
  | .ok options =>
      let options := optSet options "id" (getIdAttribute s name options)
      let options := optDel options "size"
      match jsToString (getValueAttribute s name value) with
      | .error e => .error e
      | .ok vs =>
          .ok ("<textarea" ++ attributes options ++ ">" ++ entities vs ++ "</textarea>")

/-- Modelled from the spec: the external `as-type` boolean coercion
(`cast.boolean`), per spec §4.4 "coerce the posted value to boolean". -/
def castBoolean : Val → Bool
  | .null => false
  | .bool b => b
  | .num n => n != 0
  | .str t => t == "true" || t == "1"
  | .list _ => false

/-- `_missingOldAndModel(name)` (FormBuilder.js:778): no old value and no
model value.  The model read is the unguarded `_getModelValueAttribute`, so
this throws a TypeError when no model is bound. -/
def _missingOldAndModel (s : BuilderState) (name : String) : Except JsErr Bool :=
  if !isNil (old s name) then .ok false
  else
    match _getModelValueAttribute s name with
    | .error e => .error e
    | .ok mv => .ok (isNil mv)

/-- `_getCheckboxCheckedState(name, value, checked)` (FormBuilder.js:732):
with non-empty old input but no old entry, unchecked; with neither old nor
model value, the caller's `checked`; else the resolved "posted" value —
membership test for arrays, boolean coercion otherwise. -/
def _getCheckboxCheckedState (s : BuilderState) (name : String) (value checked : Val) :
    Except JsErr Val :=
  if !oldInputIsEmpty s && isNil (old s name) then .ok (.bool false)
  else
    match _missingOldAndModel s name with
    | .error e => .error e
    | .ok true => .ok checked
    | .ok false =>
        let posted := getValueAttribute s (some name) checked
        match posted with
        | .list vs => .ok (.bool (vs.any (fun x => jsEq x value)))
        | p => .ok (.bool (castBoolean p))

/-- `_getRadioCheckedState(name, value, checked)` (FormBuilder.js:763). -/
def _getRadioCheckedState (s : BuilderState) (name : String) (value checked : Val) :
    Except JsErr Val :=
  match _missingOldAndModel s name with
  | .error e => .error e
  | .ok true => .ok checked
  | .ok false => .ok (.bool (jsEq (getValueAttribute s (some name) .null) value))

/-- `_getCheckedState(type, name, value, checked)` (FormBuilder.js:710). -/
def _getCheckedState (s : BuilderState) (type name : String) (value checked : Val) :
    Except JsErr Val :=
  match type with
  | "checkbox" => _getCheckboxCheckedState s name value checked
  | "radio" => _getRadioCheckedState s name value checked
  | _ => .ok (.bool (jsEq (getValueAttribute s (some name) .null) value))

/-- `_checkable(type, name, value, checked, options)` (FormBuilder.js:690):
inject `checked="checked"` into the caller's options when the resolved
checked state is truthy, then delegate to `input`.  On a thrown checked-state
resolution the options are still unmutated. -/
def _checkable (s : BuilderState) (type name : String) (value checked : Val)
    (options : Opts) : Except JsErr String × Opts :=
  match _getCheckedState s type name value checked with
  | .error e => (.error e, options)
  | .ok ck =>
      let options := if truthy ck then optSet options "checked" (.str "checked") else options
      let r := input s type (some name) value options
      (.ok r.1, r.2)

/-- `checkbox(name, value = 1, checked = null, options)` (FormBuilder.js:657). -/
def checkbox (s : BuilderState) (name : String) (value checked : Val) (options : Opts) :
    Except JsErr String × Opts :=
  _checkable s "checkbox" name value checked options

/-- `radio(name, value = null, checked = null, options)` (FormBuilder.js:671):
a nil value defaults to the field name. -/
def radio (s : BuilderState) (name : String) (value checked : Val) (options : Opts) :
    Except JsErr String × Opts :=
  let value := if isNil value then .str name else value
  _checkable s "radio" name value checked options

/-- `_getMethod(method)` (FormBuilder.js:865): anything but GET renders as
POST on the tag. -/
def _getMethod (method : String) : String :=
  let m := strUpper method
  if m != "GET" then "POST" else m

/-- `_getAction(options)` (FormBuilder.js:878).  The `app.url` collaborator
(`make`/`route`/`current`) is modelled from the spec (§6, URL resolution);
the array-argument splitting of `_getUrlAction`/`_getRouteAction` is folded
into the collaborator functions `mkUrl`/`mkRoute`. -/
def _getAction (s : BuilderState) (options : Opts) : String :=
  if !isNil (optGet options "url") then s.mkUrl (optGet options "url")
  else if !isNil (optGet options "route") then s.mkRoute (optGet options "route")
  else s.currentUrl

/-- `options.method || 'post'` at the top of `open` (FormBuilder.js:79). -/
def logicalMethod (options : Opts) : Val := jsOr (optGet options "method") (.str "post")

/-- `method.toUpperCase()` requires a string; any other (truthy) method value
throws when `_getMethod` first uppercases it. -/
def jsStringMethod : Val → Except JsErr String
  | .str m => .ok m
  | _ => .error (.typeErr "method.toUpperCase is not a function")

/-- The `files` check inside `open` (FormBuilder.js:95): a present `files`
option (of any value, even `false`) forces the multipart enctype onto the
caller's options. -/
def openOpts (options : Opts) : Opts :=
  if !isNil (optGet options "files") then
    optSet options "enctype" (.str "multipart/form-data")
  else options

/-- The attributes of the `<form>` tag built by `open` (FormBuilder.js:84,102):
method/action/accept-charset, then every non-reserved option key copied in
insertion order (after the `files`/enctype mutation). -/
def openAttributes (s : BuilderState) (options : Opts) (method : String) : Opts :=
  let base : Opts :=
    [("method", .str (_getMethod method)), ("action", .str (_getAction s options)),
     ("accept-charset", .str "UTF-8")]
  (openOpts options).foldl
    (fun acc p => if reserved.contains p.1 then acc else optSet acc p.1 p.2) base

/-- `_getAppendage(method)` (FormBuilder.js:930): a hidden `_method` spoof
field for DELETE/PATCH/PUT, then the CSRF token field unless the method is
GET. -/
def _getAppendage (s : BuilderState) (method : String) : String :=
  let m := strUpper method
  let appendage :=
    if spoofedMethods.contains m then (hidden s (some "_method") (.str m) []).1 else ""
  appendage ++ (if m != "GET" then (token s).1 else "")

/-- `open(options)` (FormBuilder.js:78).  Named `openForm` because `open` is
a Lean keyword.  Returns the markup (or the thrown error), the builder state
(which `open` never mutates), and the caller's options after the
`files`/enctype mutation. -/
def openForm (s : BuilderState) (options : Opts) : Except JsErr String × BuilderState × Opts :=
  match jsStringMethod (logicalMethod options) with
  | .error e => (.error e, s, options)
  | .ok method =>
      let attrs := openAttributes s options method
      let append := _getAppendage s method
      let options := openOpts options
      (.ok ("<form" ++ attributes attrs ++ ">" ++ append), s, options)

/-- `close()` (FormBuilder.js:148): clears the recorded labels and the bound
model, returns the closing tag. -/
def close (s : BuilderState) : String × BuilderState :=
  ("</form>", { s with labels := [], model := none })

/-- A select-box `list` argument: a JS array or a plain object
(string-keyed, as JS object keys are). -/
inductive SelList where
  | arr (l : List Val)
  | obj (m : List (String × Val))

/-- `select(name, list, selected, options)` (FormBuilder.js:470).  The source
resolves `selected`, writes `options.id` and (when absent) `options.name`,
and then executes the bare assignment `html = [ ]` (line 485): `html` is an
undeclared identifier there (the class field is only reachable as
`this.html`), and ES-module code is strict, so the assignment throws a
ReferenceError.  Everything after it — the placeholder option, the option
loop (itself a `for...of` over a plain object, a TypeError for object lists),
and the final serialization — is unreachable.  Returns the thrown error
together with the caller's options as mutated up to that point. -/
def select (s : BuilderState) (name : Option String) (_list : SelList) (selected : Val)
    (options : Opts) : Except JsErr String × Opts :=
  let _selected := getValueAttribute s name selected
  let options := optSet options "id" (getIdAttribute s name options)
  let options :=
    if isNil (optGet options "name") then optSet options "name" (valOfName name)
    else options
  (.error (.refErr "html is not defined"), options)

/-- The `range` object built by `selectRange` (FormBuilder.js:518):
`{begin: begin, ..., end: end}`, numeric keys stored as strings as JS object
keys are. -/
def rangeObj (b e : Int) : List (String × Val) :=
  (List.range (e + 1 - b).toNat).map (fun i => (toString (b + i), Val.num (b + i)))

/-- `selectRange(name, begin, end, selected, options)` (FormBuilder.js:517):
builds the inclusive integer range mapped to itself and delegates to
`select`. -/
def selectRange (s : BuilderState) (name : Option String) (b e : Int) (selected : Val)
    (options : Opts) : Except JsErr String × Opts :=
  select s name (.obj (rangeObj b e)) selected options

/-! Lemmas about the JS object model. -/

theorem optGet_set_eq (m : Opts) (k : String) (v : Val) : optGet (optSet m k v) k = v := by
  induction m with
  | nil => simp [optSet, optGet]
  | cons p rest ih =>
      obtain ⟨k', v'⟩ := p
      by_cases h : k' = k
      · simp [optSet, optGet, h]
      · simp [optSet, optGet, h, ih]

theorem optGet_set_ne (m : Opts) (k k₂ : String) (v : Val) (h : k₂ ≠ k) :
    optGet (optSet m k v) k₂ = optGet m k₂ := by
  have h' : (k == k₂) = false := beq_eq_false_iff_ne.mpr (fun hh => h hh.symm)
  induction m with
  | nil => simp [optSet, optGet, h']
  | cons p rest ih =>
      obtain ⟨k', v'⟩ := p
      by_cases hk : k' = k
      · subst hk
        simp [optSet, optGet, h']
      · by_cases hk2 : k' = k₂
        · simp [optSet, optGet, hk, hk2, h]
        · simp [optSet, optGet, hk, hk2, ih]

theorem optHas_set (m : Opts) (k k₂ : String) (v : Val) :
    optHas (optSet m k v) k₂ = (k == k₂ || optHas m k₂) := by
  induction m with
  | nil => simp [optSet, optHas]
  | cons p rest ih =>
      obtain ⟨k', v'⟩ := p
      by_cases hk : k' = k
      · simp [optSet, optHas, hk]
      · simp [optSet, optHas, hk, ih]
        cases h1 : (k' == k₂) <;> cases h2 : (k == k₂) <;> simp

/-! Concrete builder states used by the claim theorems: a fresh builder with
no token, no model, no old input (matching the repository, whose `old()` stub
always returns null), and variants. -/

/-- A fresh builder: no CSRF token configured, no bound model, no recorded
labels, no old input; inert URL collaborators. -/
def demoState : BuilderState :=
  { csrfToken := Val.null, model := none, labels := [], oldInput := [],
    mkUrl := fun _ => "/url", mkRoute := fun _ => "/route", currentUrl := "/current" }

/-- The builder right after `label('a')`: one recorded label. -/
def demoLabeledState : BuilderState := (label demoState "a" Val.null [] true).2

/-- The builder right after `label('first_name')`. -/
def demoFirstNameState : BuilderState := (label demoState "first_name" Val.null [] true).2

/-- A builder with old input for `email` and a bound model also exposing
`email`. -/
def demoOldState : BuilderState :=
  { demoState with
      oldInput := [("email", Val.str "old@x")],
      model := some ⟨none, [("email", Val.str "model@x")]⟩ }

/-- A builder with a bound model whose `sub` property is `true`. -/
def demoModelState : BuilderState :=
  { demoState with model := some ⟨none, [("sub", Val.bool true)]⟩ }

/-! The claim theorems. -/

/-- C1: for a present (non-absent) field name, `getValueAttribute` returns
the first available of: the old-input value for the name provided the name is
not `_method`; else the caller's explicit value when one was provided; else,
when a model is bound, the model's value for the name; else none.  When the
name is absent it returns the explicit value unchanged. -/
theorem c1_value_resolution (s : BuilderState) (n : String) (value : Val) :
    (isNil (old s n) = false → n ≠ "_method" →
      getValueAttribute s (some n) value = old s n) ∧
    ((isNil (old s n) = true ∨ n = "_method") →
      (isNil value = false → getValueAttribute s (some n) value = value) ∧
      (isNil value = true →
        getValueAttribute s (some n) value =
          (match s.model with
           | some m => modelValueOf m n
           | none => Val.null))) ∧
    getValueAttribute s none value = value := by
  refine ⟨?_, ?_, rfl⟩
  · intro h1 h2
    simp [getValueAttribute, h1, h2]
  · intro hor
    have hcond : (!isNil (old s n) && n != "_method") = false := by
      rcases hor with h | h
      · simp [h]
      · simp [h]
    exact ⟨fun hv => by simp [getValueAttribute, hcond, hv],
           fun hv => by simp [getValueAttribute, hcond, hv]⟩

/-- C1 witness: with old input `email ↦ "old@x"`, an explicit value and a
bound model also exposing `email`, resolution returns the old value. -/
theorem c1_value_resolution_witness :
    getValueAttribute demoOldState (some "email") (Val.str "explicit") = Val.str "old@x" :=
  (c1_value_resolution demoOldState "email" (Val.str "explicit")).1 rfl (by decide)

/-- C2: the claim says a configured non-absent token value is emitted and
`UNSUPPORTED` appears only when no token was configured.  The code's
condition `token.isNil || token.length` is truthy for every non-empty string
token, so every such configured token is replaced by `UNSUPPORTED`: for all
non-empty `t`, `token()` emits the sentinel, contradicting the claim. -/
theorem c2_token_nonempty_emits_sentinel (t : String) (h : t.length ≠ 0) :
    (token { demoState with csrfToken := Val.str t }).1 =
      "<input name=\"_token\" type=\"hidden\" value=\"UNSUPPORTED\">" := by
  have hb : (t.length != 0) = true := by simpa using h
  have hv : tokenValue { demoState with csrfToken := Val.str t } = Val.str "UNSUPPORTED" := by
    simp [tokenValue, isNil, hb]
  simp only [token, hv]
  rfl

/-- C2 witness: the configured token `"abc"` is emitted as `UNSUPPORTED`. -/
theorem c2_token_nonempty_emits_sentinel_witness :
    (token { demoState with csrfToken := Val.str "abc" }).1 =
      "<input name=\"_token\" type=\"hidden\" value=\"UNSUPPORTED\">" :=
  c2_token_nonempty_emits_sentinel "abc" (by decide)

/-- C4: the claim says `checkbox('subscribe', 1, true, {})` with no old input
and no bound model renders checked.  With no bound model the source's
`_missingOldAndModel` calls `_getModelValueAttribute`, which reads
`this.model.getFormValue` on the null model and throws a TypeError, so the
call produces no markup at all. -/
theorem c4_checkbox_no_model_throws :
    demoState.model = none ∧ demoState.oldInput = [] ∧
    checkbox demoState "subscribe" (Val.num 1) (Val.bool true) [] =
      (Except.error (JsErr.typeErr "Cannot read properties of null (reading getFormValue)"),
       ([] : Opts)) :=
  ⟨rfl, rfl, rfl⟩

/-- C5: the claim says `selectRange('x', 2000, 2003)` produces four options
`2000..2003`.  The source's `select` executes the bare strict-mode assignment
`html = [ ]` (an undeclared identifier) before building any option, so the
call throws a ReferenceError instead; the caller's options have by then been
mutated with `id`/`name`. -/
theorem c5_selectRange_throws :
    selectRange demoState (some "x") 2000 2003 Val.null [] =
      (Except.error (JsErr.refErr "html is not defined"),
       [("id", Val.null), ("name", Val.str "x")]) :=
  rfl

/-- C7: the claim says the key transform removes a trailing `[]` so that
`tags[]` becomes `tags`.  The source's removal regex is `/\[ \]/g` —
bracket, space, bracket — which does not match `[]`, so `tags[]` maps to
`tags.` instead; the dotted-path example is unaffected. -/
theorem c7_transformKey_trailing_brackets :
    _transformKey "tags[]" = "tags." ∧ ("tags." : String) ≠ "tags" ∧
    _transformKey "user[address][city]" = "user.address.city" :=
  ⟨rfl, by decide, rfl⟩

/-- C8: the claim says `textarea('bio', null, {size: '40x5'})` renders with
`cols=40`/`rows=5` and no `size` attribute.  With no old input, no explicit
value and no bound model, `getValueAttribute` yields null and the source's
`.toString()` call on it throws a TypeError, so nothing is rendered. -/
theorem c8_textarea_null_value_throws :
    demoState.model = none ∧ demoState.oldInput = [] ∧
    textarea demoState (some "bio") Val.null [("size", Val.str "40x5")] =
      Except.error (JsErr.typeErr "Cannot read properties of null (reading toString)") :=
  ⟨rfl, rfl, rfl⟩

/-- C6 counterexample: the claim says `label('first_name')` displays exactly
`First name`.  The source's uppercasing regex `/(\b[a-z\x00-\x7F])/gi`
uppercases the first letter of **every** word, so the displayed text is
`First Name`. -/
theorem c6_label_counterexample :
    (label demoState "first_name" Val.null [] true).1 =
      "<label for=\"first_name\">First Name</label>" ∧
    ("<label for=\"first_name\">First Name</label>" : String) ≠
      "<label for=\"first_name\">First name</label>" :=
  ⟨rfl, by decide⟩

/-- C6 (amended): `label('first_name')` with no explicit text renders a
label with `for="first_name"` and displayed text exactly `First Name`
(underscore to space, first letter of each word uppercased), and a
subsequent `input('text', 'first_name')` with no explicit id option renders
with `id="first_name"`. -/
theorem c6_label_then_input_id :
    (label demoState "first_name" Val.null [] true).1 =
      "<label for=\"first_name\">First Name</label>" ∧
    demoFirstNameState = (label demoState "first_name" Val.null [] true).2 ∧
    (input demoFirstNameState "text" (some "first_name") Val.null []).1 =
      "<input name=\"first_name\" type=\"text\" id=\"first_name\">" :=
  ⟨rfl, rfl, rfl⟩

/-- C9 counterexample: the claim says every `open` call resets the label
tracking.  Opening a form on a builder that has already recorded the label
`a` leaves that label recorded: `open` never touches `labels`. -/
theorem c9_open_counterexample :
    demoLabeledState.labels = ["a"] ∧
    ((openForm demoLabeledState []).2.1).labels = ["a"] ∧
    (["a"] : List String) ≠ [] :=
  ⟨rfl, rfl, by decide⟩

/-- C9 (amended): `open(options)` leaves the builder state — in particular
the label-tracking collection — exactly as it was; `emittedLabels` is
cleared only by `close()`. -/
theorem c9_open_preserves_labels :
    (∀ (s : BuilderState) (opts : Opts), (openForm s opts).2.1 = s) ∧
    (∀ s : BuilderState, ((close s).2).labels = []) := by
  refine ⟨fun s opts => ?_, fun s => rfl⟩
  unfold openForm
  cases jsStringMethod (logicalMethod opts) <;> rfl

/-- C3: for an options mapping whose `method` entry is a string (or absent,
defaulting to `post`), `open` returns the `<form ...>` tag concatenated with
the appendage; the appendage consists of a hidden `_method` field holding the
uppercased logical method exactly when that method is one of
DELETE/PATCH/PUT, followed by a hidden `_token` CSRF field exactly when the
method is not GET.  The label/old-input hypotheses pin the hidden fields'
attribute sets exactly (no label-induced id, no old-input override). -/
theorem c3_open_appendage (s : BuilderState) (opts : Opts) (m : String)
    (hm : logicalMethod opts = Val.str m)
    (hl1 : s.labels.contains "_method" = false)
    (hl2 : s.labels.contains "_token" = false)
    (ho1 : old s "_method" = Val.null)
    (ho2 : old s "_token" = Val.null)
    (hcs : ∃ u, tokenValue s = Val.str u) :
    (openForm s opts).1 =
      Except.ok ("<form" ++ attributes (openAttributes s opts m) ++ ">" ++ _getAppendage s m) ∧
    _getAppendage s m =
      (if spoofedMethods.contains (strUpper m) then
         (hidden s (some "_method") (Val.str (strUpper m)) []).1
       else "") ++
      (if strUpper m != "GET" then (token s).1 else "") ∧
    (hidden s (some "_method") (Val.str (strUpper m)) []).1 =
      "<input" ++ attributes
        [("name", Val.str "_method"), ("type", Val.str "hidden"),
         ("value", Val.str (strUpper m)), ("id", Val.null)] ++ ">" ∧
    (token s).1 =
      "<input" ++ attributes
        [("name", Val.str "_token"), ("type", Val.str "hidden"),
         ("value", tokenValue s), ("id", Val.null)] ++ ">" := by
  obtain ⟨u, hu⟩ := hcs
  have hmem1 : "_method" ∉ s.labels := by simpa using hl1
  have hmem2 : "_token" ∉ s.labels := by simpa using hl2
  refine ⟨?_, rfl, ?_, ?_⟩
  · simp only [openForm, hm, jsStringMethod]
  · simp [hidden, input, optSet, optGet, isNil, getIdAttribute, getValueAttribute,
      valOfName, hmem1, ho1, skipValueTypes]
  · simp [token, hidden, input, optSet, optGet, isNil, getIdAttribute, getValueAttribute,
      valOfName, hmem2, ho2, hu, skipValueTypes]

/-- C3 witness: `open({method: 'put'})` on a fresh builder yields the form
tag followed by the `_method=PUT` spoof field and the token field. -/
theorem c3_open_appendage_witness :
    (openForm demoState [("method", Val.str "put")]).1 =
      Except.ok ("<form method=\"POST\" action=\"/current\" accept-charset=\"UTF-8\">" ++
        "<input name=\"_method\" type=\"hidden\" value=\"PUT\">" ++
        "<input name=\"_token\" type=\"hidden\" value=\"UNSUPPORTED\">") :=
  (c3_open_appendage demoState [("method", Val.str "put")] "put" rfl rfl rfl rfl rfl
    ⟨"UNSUPPORTED", rfl⟩).1

/-- C10 counterexample: the claim says `select` deletes the `placeholder`
entry from the caller's options.  `select` throws (ReferenceError on the
undeclared `html`) before reaching the deletion, so the entry survives the
call. -/
theorem c10_select_placeholder_counterexample :
    optHas (select demoState (some "color") (SelList.arr []) Val.null
      [("placeholder", Val.str "Pick")]).2 "placeholder" = true ∧
    (select demoState (some "color") (SelList.arr []) Val.null
      [("placeholder", Val.str "Pick")]).1 =
      Except.error (JsErr.refErr "html is not defined") :=
  ⟨rfl, rfl⟩

/-- C10 (amended): public field-rendering methods mutate the caller's options
mapping in place — after `input` the mapping contains entries for `type`,
`value`, `id`, and (when previously absent) `name`; `checkbox`/`radio`
insert `checked='checked'` when the checked state resolves true; `select`
writes `id` and (when absent) `name` into it but does **not** delete its
`placeholder` entry, because it aborts with a ReferenceError before the
deletion. -/
theorem c10_options_mutation (s : BuilderState) :
    (∀ (type : String) (name : Option String) (value : Val) (opts : Opts),
      optHas (input s type name value opts).2 "type" = true ∧
      optHas (input s type name value opts).2 "value" = true ∧
      optHas (input s type name value opts).2 "id" = true ∧
      (isNil (optGet opts "name") = true →
        optGet (input s type name value opts).2 "name" = valOfName name)) ∧
    (∀ (name : String) (value checked : Val) (opts : Opts) (ck : Val),
      _getCheckedState s "checkbox" name value checked = Except.ok ck →
      truthy ck = true →
      optGet (checkbox s name value checked opts).2 "checked" = Val.str "checked") ∧
    (∀ (name : String) (value checked : Val) (opts : Opts) (ck : Val),
      _getCheckedState s "radio" name (if isNil value then Val.str name else value)
          checked = Except.ok ck →
      truthy ck = true →
      optGet (radio s name value checked opts).2 "checked" = Val.str "checked") ∧
    (∀ (name : Option String) (list : SelList) (sel : Val) (opts : Opts),
      optHas (select s name list sel opts).2 "id" = true ∧
      (isNil (optGet opts "name") = true →
        optGet (select s name list sel opts).2 "name" = valOfName name) ∧
      optGet (select s name list sel opts).2 "placeholder" = optGet opts "placeholder") := by
  refine ⟨fun type name value opts => ?_, fun name value checked opts ck hck htr => ?_,
          fun name value checked opts ck hck htr => ?_, fun name list sel opts => ?_⟩
  · refine ⟨?_, ?_, ?_, fun h => ?_⟩
    · simp [input, optHas_set]
    · simp [input, optHas_set]
    · simp [input, optHas_set]
    · simp [input, h, optGet_set_ne, optGet_set_eq]
  · simp only [checkbox, _checkable, hck, htr, if_true]
    by_cases h : isNil (optGet opts "name") = true <;>
      simp [input, h, optGet_set_ne, optGet_set_eq]
  · simp only [radio, _checkable, hck, htr, if_true]
    by_cases h : isNil (optGet opts "name") = true <;>
      simp [input, h, optGet_set_ne, optGet_set_eq]
  · refine ⟨?_, fun h => ?_, ?_⟩
    · by_cases h : isNil (optGet opts "name") = true <;>
        simp [select, h, optHas_set, optGet_set_ne]
    · simp [select, h, optGet_set_ne, optGet_set_eq]
    · by_cases h : isNil (optGet opts "name") = true <;>
        simp [select, h, optGet_set_ne]

/-- C10 witness: with a bound model whose `sub` is true, the checkbox
checked-state resolves true and `checked="checked"` is inserted into the
caller's (initially empty) options. -/
theorem c10_options_mutation_witness :
    optGet (checkbox demoModelState "sub" (Val.num 1) Val.null []).2 "checked" =
      Val.str "checked" :=
  (c10_options_mutation demoModelState).2.1 "sub" (Val.num 1) Val.null [] (Val.bool true)
    rfl rfl

end GrindHtml
